import Mathlib

/-!
Shallow embedding of the streaming client of `gmo_coin_fx_api`
(`websocket_api.py`) and of the parameter-validation paths of
`private_api.py`, with theorems settling the specification claims.

Conventions of the embedding:
* Python `dict[str, cb]` is an association list with in-place replacement
  on key collision (Python dicts keep insertion order and update in place).
* Python truthiness on optional strings (`if not self.api_key`,
  `if channel:`, `if token:`) is the `truthy` predicate below: `None` and
  the empty string are falsy.
* Callbacks are functions `Frame → Except Unit Unit`; raising an
  exception (or an async callback rejecting) is returning `.error`.
  `_dispatch` awaits async callbacks and calls sync ones the same way, so
  both styles collapse to one function type here.
* I/O is modelled by oracles: each connection attempt / receive step /
  token call is driven by an oracle value describing what the transport
  or the REST endpoint did, and the loop produces a trace of events.
-/

namespace GmoFx

/-- Association-list model of a Python `dict` keyed by strings:
`d[k] = v` replaces the binding in place when the key exists, else
appends it (insertion order preserved, as Python dicts do). -/
def dictInsert {α : Type} : List (String × α) → String → α → List (String × α)
  | [], k, v => [(k, v)]
  | (k', v') :: rest, k, v =>
    if k' = k then (k, v) :: rest else (k', v') :: dictInsert rest k v

/-- Lookup `d.get(k)` on the association-list model of a Python `dict`. -/
def dictGet {α : Type} : List (String × α) → String → Option α
  | [], _ => none
  | (k', v') :: rest, k => if k' = k then some v' else dictGet rest k

/-- Python truthiness of an optional string: `None` and `""` are falsy. -/
def truthy : Option String → Bool
  | none => false
  | some s => !(s = "")

/-- A decoded inbound frame, keeping exactly the fields `_dispatch`
inspects: the value of the `channel` key (absent = `none`) and whether
the `ask` / `bid` keys are present. -/
structure Frame where
  channel : Option String
  hasAsk : Bool
  hasBid : Bool
deriving DecidableEq, Repr

/-- A callback registered via a `subscribe_*` method. `.error` models the
callback raising (sync) or rejecting (async). -/
def Cb : Type := Frame → Except Unit Unit

/-- One subscribe-command descriptor stored in `_public_subscriptions` /
`_private_subscriptions`: the dict
`{"command": "subscribe", "channel": ..., "symbol"?: ..., "option"?: ...}`
(the constant `command` key is left implicit). -/
structure SubMsg where
  channel : String
  symbol : Option String
  option : Option String
deriving DecidableEq, Repr

/-- The loop coroutines `start` can spawn as `asyncio.Task`s. -/
inductive TaskKind
  | publicLoop
  | privateLoop
deriving DecidableEq, Repr

/-- The mutable state of a `WebsocketAPI` instance. -/
structure Client where
  api_key : Option String
  secret_key : Option String
  running : Bool
  tasks : List TaskKind
  callbacks : List (String × Cb)
  public_subscriptions : List SubMsg
  private_subscriptions : List SubMsg

/-- Constructor `WebsocketAPI.__init__(api_key, secret_key, on_error)`: flags down,
no tasks, empty registries. -/
def initClient (api_key secret_key : Option String) : Client :=
  { api_key := api_key
    secret_key := secret_key
    running := false
    tasks := []
    callbacks := []
    public_subscriptions := []
    private_subscriptions := [] }

/-- Method `WebsocketAPI.subscribe_ticker(symbol, callback)`. -/
def subscribe_ticker (c : Client) (symbol : String) (callback : Cb) : Client :=
  { c with
    callbacks := dictInsert c.callbacks "ticker" callback
    public_subscriptions :=
      c.public_subscriptions ++ [⟨"ticker", some symbol, none⟩] }

/-- Method `WebsocketAPI.subscribe_executions(callback)`. -/
def subscribe_executions (c : Client) (callback : Cb) : Client :=
  { c with
    callbacks := dictInsert c.callbacks "executionEvents" callback
    private_subscriptions :=
      c.private_subscriptions ++ [⟨"executionEvents", none, none⟩] }

/-- Method `WebsocketAPI.subscribe_orders(callback)`. -/
def subscribe_orders (c : Client) (callback : Cb) : Client :=
  { c with
    callbacks := dictInsert c.callbacks "orderEvents" callback
    private_subscriptions :=
      c.private_subscriptions ++ [⟨"orderEvents", none, none⟩] }

/-- Method `WebsocketAPI.subscribe_positions(callback)`. -/
def subscribe_positions (c : Client) (callback : Cb) : Client :=
  { c with
    callbacks := dictInsert c.callbacks "positionEvents" callback
    private_subscriptions :=
      c.private_subscriptions ++ [⟨"positionEvents", none, none⟩] }

/-- Method `WebsocketAPI.subscribe_position_summary(callback, option)`. -/
def subscribe_position_summary (c : Client) (callback : Cb)
    (option : String) : Client :=
  { c with
    callbacks := dictInsert c.callbacks "positionSummaryEvents" callback
    private_subscriptions :=
      c.private_subscriptions ++ [⟨"positionSummaryEvents", none, some option⟩] }

/-- One call to a public `subscribe_*` method, for quantifying over call
sequences. -/
inductive SubCall
  | ticker (symbol : String) (callback : Cb)
  | executions (callback : Cb)
  | orders (callback : Cb)
  | positions (callback : Cb)
  | positionSummary (callback : Cb) (option : String)

/-- Apply one `subscribe_*` call to the client state. -/
def applyCall (c : Client) : SubCall → Client
  | .ticker symbol callback => subscribe_ticker c symbol callback
  | .executions callback => subscribe_executions c callback
  | .orders callback => subscribe_orders c callback
  | .positions callback => subscribe_positions c callback
  | .positionSummary callback option => subscribe_position_summary c callback option

/-- The client state after a sequence of `subscribe_*` calls on a fresh
instance with the given credentials. -/
def clientOf (api_key secret_key : Option String) (calls : List SubCall) : Client :=
  calls.foldl applyCall (initClient api_key secret_key)

/-- Outcome of `await start()`: the exception raised (if any) together
with the instance state at the moment `start` returned or raised. -/
structure StartResult where
  error : Option String
  state : Client

/-- Method `WebsocketAPI.start()`: sets `_running`, spawns the public loop task
when public subscriptions exist, then — only if private subscriptions
exist — validates credentials (raising `ValueError` before spawning the
private loop task) and spawns the private loop task. -/
def start (c : Client) : StartResult :=
  let c1 := { c with running := true }
  let c2 :=
    if c1.public_subscriptions.isEmpty then c1
    else { c1 with tasks := c1.tasks ++ [TaskKind.publicLoop] }
  if c2.private_subscriptions.isEmpty then
    { error := none, state := c2 }
  else if !truthy c2.api_key || !truthy c2.secret_key then
    { error := some "Private API subscriptions require api_key and secret_key."
      state := c2 }
  else
    { error := none, state := { c2 with tasks := c2.tasks ++ [TaskKind.privateLoop] } }

/-- Outcome of `await close()`. `cancelled` lists the `task.cancel()`
calls in order; `awaited` records whether the `asyncio.gather(...,
return_exceptions=True)` settlement wait ran. `close` is total: `cancel`
does not raise, and `gather` with `return_exceptions=True` swallows task
exceptions, so no exception escapes `close`. -/
structure CloseResult where
  cancelled : List TaskKind
  awaited : Bool
  state : Client

/-- Method `WebsocketAPI.close()`: clears `_running`, cancels every task, awaits
their settlement when any exist, then empties the task list. -/
def close (c : Client) : CloseResult :=
  { cancelled := c.tasks
    awaited := !c.tasks.isEmpty
    state := { c with running := false, tasks := [] } }

/-! ### Message dispatcher (`WebsocketAPI._dispatch`) -/

/-- The callback `_dispatch` selects for a frame, mirroring
```
channel = data.get("channel")
if channel: callback = self._callbacks.get(channel)
elif "ask" in data and "bid" in data: callback = self._callbacks.get("ticker")
```
Note the Python truthiness test: a present-but-empty `channel` value
falls through to the `ask`/`bid` shape fallback. -/
def dispatchTarget (cbs : List (String × Cb)) (f : Frame) : Option Cb :=
  if truthy f.channel then
    dictGet cbs (f.channel.getD "")
  else if f.hasAsk && f.hasBid then
    dictGet cbs "ticker"
  else
    none

/-- What `_dispatch` did with one frame. -/
inductive DispatchOutcome
  | delivered
  | callbackError
  | dropped
deriving DecidableEq, Repr

/-- Run `_dispatch` on one frame: invoke the selected callback (awaiting
an async one), catching any exception it raises (`except Exception`
around the call), so the result is total — nothing propagates. -/
def dispatchRun (cbs : List (String × Cb)) (f : Frame) : DispatchOutcome :=
  match dispatchTarget cbs f with
  | none => .dropped
  | some cb =>
    match cb f with
    | .ok _ => .delivered
    | .error _ => .callbackError

/-! ### Connection session (`WebsocketAPI._run_ws_loop`) -/

/-- One step of the transport oracle inside the receive loop: what
`resp.extension.next_payload()` (plus `json.loads`) produced. -/
inductive RecvStep
  | frame (f : Frame)
  | closed
  | timeout
  | raised
deriving Repr

/-- How the receive loop of one connection attempt ended. `stopped`
models `_running` going false (oracle exhausted); `raised` propagates to
the `except` clause of the outer loop. -/
inductive ExitKind
  | stopped
  | serverClosed
  | timedOut
  | raised
deriving DecidableEq, Repr

/-- The receive loop (step 4 of `_run_ws_loop`): each decoded frame is
dispatched, a `None` payload breaks (server close), a `ReadTimeout`
breaks, and any other exception escapes the inner loop. A callback
error is already absorbed inside `dispatchRun`. -/
def recvLoop (cbs : List (String × Cb)) :
    List RecvStep → List (Frame × DispatchOutcome) × ExitKind
  | [] => ([], .stopped)
  | .frame f :: rest =>
    let r := recvLoop cbs rest
    ((f, dispatchRun cbs f) :: r.1, r.2)
  | .closed :: _ => ([], .serverClosed)
  | .timeout :: _ => ([], .timedOut)
  | .raised :: _ => ([], .raised)

/-- Oracle for one iteration of the outer `while self._running` loop of
`_run_ws_loop`: either `session.get(url)` raised, or it returned a
response with the given status code and the receive steps follow. -/
inductive AttemptOracle
  | connExn
  | upgraded (status : Nat) (recvs : List RecvStep)
deriving Repr

/-- Observable events of a `_run_ws_loop` run. -/
inductive Ev
  | send (m : SubMsg)
  | recvFrame (f : Frame)
  | errorCb
  | delay
deriving DecidableEq, Repr

/-- Trace of one iteration of `_run_ws_loop`:
* `session.get` raising lands in the `except` clause: `_handle_error`
  (error callback) then `asyncio.sleep(RECONNECT_DELAY)`;
* a status other than `101` only logs, sleeps the reconnect delay and
  `continue`s — no error callback;
* on `101`, every subscription message is sent in list order, then the
  receive loop runs; only an exception escaping the receive loop reaches
  the `except` clause (error callback + delay) — a server close or a
  read timeout falls out of the `async with` and retries immediately. -/
def attemptTrace (cbs : List (String × Cb)) (subs : List SubMsg) :
    AttemptOracle → List Ev
  | .connExn => [.errorCb, .delay]
  | .upgraded status recvs =>
    if status = 101 then
      let r := recvLoop cbs recvs
      subs.map Ev.send
        ++ r.1.map (fun p => Ev.recvFrame p.1)
        ++ (if r.2 = ExitKind.raised then [Ev.errorCb, Ev.delay] else [])
    else
      [Ev.delay]

/-- Loop `_run_ws_loop`: the outer `while self._running` loop, one oracle per
iteration (the list ending models `_running` going false). -/
def wsLoop (cbs : List (String × Cb)) (subs : List SubMsg) :
    List AttemptOracle → List Ev
  | [] => []
  | o :: os => attemptTrace cbs subs o ++ wsLoop cbs subs os

/-! ### Private reconnect supervisor (`WebsocketAPI._run_private_loop`) -/

/-- Observable events of a `_run_private_loop` run. `connectAttempt`
marks one iteration of the INNER `while self._running` loop of the
`_run_ws_loop` call — one `session.get` on the private URL, whose path
carries the token — and `inner` wraps the events that iteration
produced. -/
inductive PEv
  | issueReq
  | connectAttempt (token : String)
  | inner (e : Ev)
  | deleteReq (token : String)
  | errorCb
  | delay
deriving DecidableEq, Repr

/-- Trace of the inner `_run_ws_loop(ws_url, subscriptions, "Private")`
call: `_run_ws_loop` has its own `while self._running` reconnect loop,
so ONE call performs one `session.get(url)` per inner iteration —
every one of them on the same `ws_url` and hence with the same token
(the URL is built once, before the call) — until `_running` goes false
(the oracle list ending) or the call raises. This is `wsLoop` with each
iteration's connection attempt made visible together with the token its
URL carries. -/
def privSession (cbs : List (String × Cb)) (subs : List SubMsg)
    (token : String) : List AttemptOracle → List PEv
  | [] => []
  | o :: os =>
    PEv.connectAttempt token :: (attemptTrace cbs subs o).map PEv.inner
      ++ privSession cbs subs token os

/-- Oracle for one iteration of the OUTER `while self._running` loop of
`_run_private_loop`: what `api.get_ws_token()` did (`.error` = raised;
`.ok` = returned, possibly `None`/empty), the inner connection attempts
the single `_run_ws_loop` call performed, whether that call raised an
`Exception` out of the inner loop (e.g. a user error callback raising;
plain disconnects are retried inside and do not end the call), and
whether `api.delete_ws_token(token)` raised (the `finally` clause
catches that and only logs). Task cancellation (`CancelledError`, not
an `Exception`) also runs the `finally` deletion and then ends the
task; it is represented by the oracle lists ending. -/
structure PrivOracle where
  issueRes : Except Unit (Option String)
  sessionAttempts : List AttemptOracle
  sessionRaised : Bool
  deleteRaised : Bool

/-- Trace of one iteration of `_run_private_loop`:
`token = None`; the `try` block requests a token (one `issueReq`),
raises `ValueError` if it is falsy, else builds the token URL once and
calls `_run_ws_loop` on it — a single call that internally loops over
connection attempts, all with that same URL/token; the `except` clause
reports an escaping error and sleeps; the `finally` clause attempts
exactly one token deletion when `token` is truthy, once the whole
inner call is over. The `except` handler runs before `finally`, so the
deletion follows the delay on the failure path. -/
def privIter (cbs : List (String × Cb)) (subs : List SubMsg)
    (o : PrivOracle) : List PEv :=
  match o.issueRes with
  | .error _ => [.issueReq, .errorCb, .delay]
  | .ok tok =>
    if truthy tok then
      [PEv.issueReq]
        ++ privSession cbs subs (tok.getD "") o.sessionAttempts
        ++ (if o.sessionRaised then [PEv.errorCb, PEv.delay] else [])
        ++ [PEv.deleteReq (tok.getD "")]
    else
      [.issueReq, .errorCb, .delay]

/-- Loop `_run_private_loop`: the outer `while self._running` loop, one
oracle per iteration. -/
def privLoop (cbs : List (String × Cb)) (subs : List SubMsg) :
    List PrivOracle → List PEv
  | [] => []
  | o :: os => privIter cbs subs o ++ privLoop cbs subs os

/-! ### REST parameter validation (`private_api.py`)

Each operation below is embedded as the part of the method between the
rate-limiter call and `self._generate_headers(...)`: the assembly of
the `params`/`req_body` dict interleaved with its `ValueError`
validation. `.ok` carries the finished dict; `.error` carries the
`ValueError` message TOGETHER WITH the dict as built at the moment of
the raise — the body construction that has already happened when
validation fails. Header generation and the HTTP request happen only
after an `.ok`. -/

/-- One entry of a `settlePosition: list[dict]` argument
(`{"positionId": ..., "size": ...}`). -/
structure SettlePosition where
  positionId : Int
  size : String
deriving DecidableEq, Repr

/-- A JSON-able value placed in a query-parameter or request-body dict. -/
inductive JVal
  | str (s : String)
  | int (i : Int)
  | strList (l : List String)
  | settleList (l : List SettlePosition)
deriving DecidableEq, Repr

/-- Python truthiness of an optional int (`rootOrderId: int | None`):
`None` and `0` are falsy. -/
def truthyInt : Option Int → Bool
  | none => false
  | some i => !(i = 0)

/-- Python truthiness of an optional list argument
(`rootOrderIds: list[str] | None`, `settlePosition: list[dict] | None`):
`None` and the empty list are falsy. -/
def truthyList {α : Type} : Option (List α) → Bool
  | none => false
  | some l => !l.isEmpty

/-- Short name for the outcome type of the embedded operations. -/
def ReqResult : Type := Except (String × List (String × JVal)) (List (String × JVal))

/-- Validation and parameter assembly of `PrivateAPI.get_orders`
(`orderId: str | None`, `rootOrderId: str | None`):
```
params = {}
if orderId and rootOrderId: raise ValueError(...)
elif orderId: params["orderId"] = orderId
elif rootOrderId: params["rootOrderId"] = rootOrderId
else: raise ValueError(...)
``` -/
def get_orders_params (orderId rootOrderId : Option String) : ReqResult :=
  let params : List (String × JVal) := []
  if truthy orderId && truthy rootOrderId then
    .error ("rootOrderId orderId 2つ同時には設定できません。", params)
  else if truthy orderId then
    .ok (params ++ [("orderId", JVal.str (orderId.getD ""))])
  else if truthy rootOrderId then
    .ok (params ++ [("rootOrderId", JVal.str (rootOrderId.getD ""))])
  else
    .error ("rootOrderId orderId いずれか1つが必須です。", params)

/-- Validation and parameter assembly of `PrivateAPI.get_executions`
(`orderId: int | None`, `executionId: str | None`) — the same
truthiness chain as `get_orders`, with an int-typed first member. -/
def get_executions_params (orderId : Option Int)
    (executionId : Option String) : ReqResult :=
  let params : List (String × JVal) := []
  if truthyInt orderId && truthy executionId then
    .error ("orderId executionId 2つ同時には設定できません。", params)
  else if truthyInt orderId then
    .ok (params ++ [("orderId", JVal.int (orderId.getD 0))])
  else if truthy executionId then
    .ok (params ++ [("executionId", JVal.str (executionId.getD ""))])
  else
    .error ("orderId executionId いずれか1つが必須です。", params)

/-- Validation and body assembly of `PrivateAPI.change_order`:
`req_body = {"price": price}` is built BEFORE the
`orderId`/`clientOrderId` mutual-exclusion checks run, so a validation
`ValueError` is raised with the body already holding `price`. -/
def change_order_req_body (price : String)
    (orderId clientOrderId : Option String) : ReqResult :=
  let req_body : List (String × JVal) := [("price", JVal.str price)]
  if truthy orderId && truthy clientOrderId then
    .error ("orderId clientOrderId 2つ同時には設定できません。", req_body)
  else if truthy orderId then
    .ok (req_body ++ [("orderId", JVal.str (orderId.getD ""))])
  else if truthy clientOrderId then
    .ok (req_body ++ [("clientOrderId", JVal.str (clientOrderId.getD ""))])
  else
    .error ("orderId clientOrderId いずれか1つが必須です。", req_body)

/-- Validation and body assembly of `PrivateAPI.change_oco_order`: the
`rootOrderId`/`clientOrderId` mutual-exclusion chain fills the body,
then the `limitPrice is None and stopPrice is None` check (an `is None`
test, not truthiness) can raise — with the pair member already in the
body — and finally the truthy prices are added. -/
def change_oco_order_req_body (rootOrderId : Option Int)
    (clientOrderId limitPrice stopPrice : Option String) : ReqResult :=
  let req_body : List (String × JVal) := []
  let step1 : ReqResult :=
    if truthyInt rootOrderId && truthy clientOrderId then
      .error ("rootOrderId clientOrderId 2つ同時には設定できません。", req_body)
    else if truthyInt rootOrderId then
      .ok (req_body ++ [("rootOrderId", JVal.int (rootOrderId.getD 0))])
    else if truthy clientOrderId then
      .ok (req_body ++ [("clientOrderId", JVal.str (clientOrderId.getD ""))])
    else
      .error ("rootOrderId clientOrderId いずれか1つが必須です。", req_body)
  match step1 with
  | .error e => .error e
  | .ok rb1 =>
    if limitPrice.isNone && stopPrice.isNone then
      .error ("limitPrice stopPrice 両方もしくはどちらか1つが必須です。", rb1)
    else
      .ok (rb1
        ++ (if truthy limitPrice then [("limitPrice", JVal.str (limitPrice.getD ""))] else [])
        ++ (if truthy stopPrice then [("stopPrice", JVal.str (stopPrice.getD ""))] else []))

/-- Validation and body assembly of `PrivateAPI.change_ifd_order` —
identical shape to `change_oco_order` with `firstPrice`/`secondPrice`
as the second-stage pair. -/
def change_ifd_order_req_body (rootOrderId : Option Int)
    (clientOrderId firstPrice secondPrice : Option String) : ReqResult :=
  let req_body : List (String × JVal) := []
  let step1 : ReqResult :=
    if truthyInt rootOrderId && truthy clientOrderId then
      .error ("rootOrderId clientOrderId 2つ同時には設定できません。", req_body)
    else if truthyInt rootOrderId then
      .ok (req_body ++ [("rootOrderId", JVal.int (rootOrderId.getD 0))])
    else if truthy clientOrderId then
      .ok (req_body ++ [("clientOrderId", JVal.str (clientOrderId.getD ""))])
    else
      .error ("rootOrderId clientOrderId いずれか1つが必須です。", req_body)
  match step1 with
  | .error e => .error e
  | .ok rb1 =>
    if firstPrice.isNone && secondPrice.isNone then
      .error ("firstPrice secondPrice 両方もしくはどちらか1つが必須です。", rb1)
    else
      .ok (rb1
        ++ (if truthy firstPrice then [("firstPrice", JVal.str (firstPrice.getD ""))] else [])
        ++ (if truthy secondPrice then [("secondPrice", JVal.str (secondPrice.getD ""))] else []))

/-- Validation and body assembly of `PrivateAPI.change_ifo_order` —
same pair chain, with the three-way
`firstPrice is None and secondLimitPrice is None and secondStopPrice is
None` second-stage check. -/
def change_ifo_order_req_body (rootOrderId : Option Int)
    (clientOrderId firstPrice secondLimitPrice secondStopPrice : Option String) :
    ReqResult :=
  let req_body : List (String × JVal) := []
  let step1 : ReqResult :=
    if truthyInt rootOrderId && truthy clientOrderId then
      .error ("rootOrderId clientOrderId 2つ同時には設定できません。", req_body)
    else if truthyInt rootOrderId then
      .ok (req_body ++ [("rootOrderId", JVal.int (rootOrderId.getD 0))])
    else if truthy clientOrderId then
      .ok (req_body ++ [("clientOrderId", JVal.str (clientOrderId.getD ""))])
    else
      .error ("rootOrderId clientOrderId いずれか1つが必須です。", req_body)
  match step1 with
  | .error e => .error e
  | .ok rb1 =>
    if firstPrice.isNone && secondLimitPrice.isNone && secondStopPrice.isNone then
      .error ("firstPrice secondLimitPrice secondStopPrice の内全てもしくはいずれか1つ以上が必須です。", rb1)
    else
      .ok (rb1
        ++ (if truthy firstPrice then [("firstPrice", JVal.str (firstPrice.getD ""))] else [])
        ++ (if truthy secondLimitPrice then
            [("secondLimitPrice", JVal.str (secondLimitPrice.getD ""))] else [])
        ++ (if truthy secondStopPrice then
            [("secondStopPrice", JVal.str (secondStopPrice.getD ""))] else []))

/-- Validation and body assembly of `PrivateAPI.cancel_orders`
(`rootOrderIds: list[str] | None`, `clientOrderIds: list[str] | None`) —
the pair members are lists, so Python truthiness treats `None` and the
empty list as absent. -/
def cancel_orders_req_body (rootOrderIds clientOrderIds : Option (List String)) :
    ReqResult :=
  let req_body : List (String × JVal) := []
  if truthyList rootOrderIds && truthyList clientOrderIds then
    .error ("rootOrderIds clientOrderIds 2つ同時には設定できません。", req_body)
  else if truthyList rootOrderIds then
    .ok (req_body ++ [("rootOrderIds", JVal.strList (rootOrderIds.getD []))])
  else if truthyList clientOrderIds then
    .ok (req_body ++ [("clientOrderIds", JVal.strList (clientOrderIds.getD []))])
  else
    .error ("rootOrderIds clientOrderIds いずれか1つが必須です。", req_body)

/-- Validation and body assembly of `PrivateAPI.close_order`:
`req_body = {"symbol": ..., "side": ..., "executionType": ...}` is
built BEFORE the `size`/`settlePosition` mutual-exclusion checks; then
`clientOrderId` is added when truthy; then the `limitPrice`/`stopPrice`
`is None` checks fire depending on `executionType`, and the MARKET
bound fields are added last. -/
def close_order_req_body (symbol side executionType : String)
    (clientOrderId size limitPrice stopPrice lowerBound upperBound : Option String)
    (settlePosition : Option (List SettlePosition)) : ReqResult :=
  let rb0 : List (String × JVal) :=
    [("symbol", JVal.str symbol), ("side", JVal.str side),
      ("executionType", JVal.str executionType)]
  let stage1 : ReqResult :=
    if truthy size && truthyList settlePosition then
      .error ("size settlePosition 2つ同時には設定できません。", rb0)
    else if truthy size then
      .ok (rb0 ++ [("size", JVal.str (size.getD ""))])
    else if truthyList settlePosition then
      .ok (rb0 ++ [("settlePosition", JVal.settleList (settlePosition.getD []))])
    else
      .error ("size settlePosition いずれか1つが必須です。", rb0)
  match stage1 with
  | .error e => .error e
  | .ok rb1 =>
    let rb2 :=
      if truthy clientOrderId then
        rb1 ++ [("clientOrderId", JVal.str (clientOrderId.getD ""))]
      else rb1
    let limitStage : ReqResult :=
      if executionType = "LIMIT" ∨ executionType = "OCO" then
        match limitPrice with
        | none =>
          .error ("limitPrice は注文タイプが LIMIT または OCO の場合に必須です。", rb2)
        | some lp => .ok (rb2 ++ [("limitPrice", JVal.str lp)])
      else .ok rb2
    match limitStage with
    | .error e => .error e
    | .ok rb3 =>
      let stopStage : ReqResult :=
        if executionType = "STOP" ∨ executionType = "OCO" then
          match stopPrice with
          | none =>
            .error ("stopPrice は注文タイプが STOP または OCO の場合に必須です。", rb3)
          | some sp => .ok (rb3 ++ [("stopPrice", JVal.str sp)])
        else .ok rb3
      match stopStage with
      | .error e => .error e
      | .ok rb4 =>
        .ok (if executionType = "MARKET" then
            if side = "SELL" && truthy lowerBound then
              rb4 ++ [("lowerBound", JVal.str (lowerBound.getD ""))]
            else if side = "BUY" && truthy upperBound then
              rb4 ++ [("upperBound", JVal.str (upperBound.getD ""))]
            else rb4
          else rb4)

/-- Did the operation pass validation (no `ValueError`)? -/
def passes : ReqResult → Bool
  | .ok _ => true
  | .error _ => false

/-- The keys of the given mutually-exclusive pair appearing in the
outgoing parameter dict — used to state which pair member made it into
the request (empty when validation raised). -/
def pairKeys (k1 k2 : String) (r : ReqResult) : List String :=
  match r with
  | .error _ => []
  | .ok l => (l.map Prod.fst).filter (fun k => k == k1 || k == k2)

/-! ### Concrete values for witnesses and counterexamples -/

/-- A callback that returns normally on every frame. -/
def cb0 : Cb := fun _ => Except.ok ()

/-- A callback that raises (rejects) on every frame. -/
def cbThrow : Cb := fun _ => Except.error ()

/-- A started client with one public subscription, used to exercise
`close` on a state with an outstanding task. -/
def wClient : Client :=
  (start (clientOf (some "k") (some "s") [SubCall.ticker "USD_JPY" cb0])).state

/-- Is a trace event a subscribe-command send? -/
def isSend : Ev → Bool
  | .send _ => true
  | _ => false

/-- Is a trace event a subscribe-command send for the given channel? -/
def sendChannelIs (ch : String) : Ev → Bool
  | .send m => m.channel == ch
  | _ => false

/-- Is a private-loop event a token-issue request? -/
def isIssue : PEv → Bool
  | .issueReq => true
  | _ => false

/-- Is a private-loop event a connection attempt (a `session.get` on the
token-bearing private URL)? -/
def isConnect : PEv → Bool
  | .connectAttempt _ => true
  | _ => false

/-- Is a private-loop event a token-deletion attempt? -/
def isDelete : PEv → Bool
  | .deleteReq _ => true
  | _ => false

/-- The failing scenario for the per-attempt token lifecycle:
`get_ws_token` returns `"T"`; the first connection upgrades (101) and
the server then closes it; the client is still running, so the inner
loop of `_run_ws_loop` makes a second connection attempt. -/
def privBugOracle : PrivOracle :=
  { issueRes := Except.ok (some "T")
    sessionAttempts :=
      [AttemptOracle.upgraded 101 [RecvStep.closed],
        AttemptOracle.upgraded 101 []]
    sessionRaised := false
    deleteRaised := false }

end GmoFx

namespace GmoFx

/-! ### Helper lemmas -/

theorem dictGet_dictInsert_self {α : Type} (d : List (String × α)) (k : String) (v : α) :
    dictGet (dictInsert d k v) k = some v := by
  induction d with
  | nil => simp [dictInsert, dictGet]
  | cons hd tl ih =>
    obtain ⟨k', v'⟩ := hd
    by_cases h : k' = k <;> simp [dictInsert, dictGet, h, ih]

theorem dictGet_dictInsert_ne {α : Type} (d : List (String × α)) (k k' : String) (v : α)
    (h : k' ≠ k) : dictGet (dictInsert d k v) k' = dictGet d k' := by
  induction d with
  | nil => simp [dictInsert, dictGet, Ne.symm h]
  | cons hd tl ih =>
    obtain ⟨ka, va⟩ := hd
    by_cases hk : ka = k
    · simp [dictInsert, dictGet, hk, Ne.symm h]
    · simp [dictInsert, dictGet, hk, ih]

theorem start_error_none_iff (c : Client) :
    (start c).error = none ↔
      (c.private_subscriptions.isEmpty = true
        ∨ (truthy c.api_key = true ∧ truthy c.secret_key = true)) := by
  by_cases hpub : c.public_subscriptions.isEmpty <;>
    by_cases hpriv : c.private_subscriptions.isEmpty <;>
      by_cases hk : truthy c.api_key <;>
        by_cases hs : truthy c.secret_key <;>
          simp [start, hpub, hpriv, hk, hs]

theorem start_tasks_of_no_error (c : Client) (h : (start c).error = none) :
    (start c).state.tasks = c.tasks
      ++ (if c.public_subscriptions.isEmpty then [] else [TaskKind.publicLoop])
      ++ (if c.private_subscriptions.isEmpty then [] else [TaskKind.privateLoop]) := by
  rw [start_error_none_iff] at h
  by_cases hpub : c.public_subscriptions.isEmpty <;>
    by_cases hpriv : c.private_subscriptions.isEmpty <;>
      rcases h with h | ⟨hk, hs⟩ <;>
        simp_all [start]

theorem start_preserves_registry (c : Client) :
    (start c).state.public_subscriptions = c.public_subscriptions
      ∧ (start c).state.private_subscriptions = c.private_subscriptions
      ∧ (start c).state.api_key = c.api_key
      ∧ (start c).state.secret_key = c.secret_key := by
  by_cases hpub : c.public_subscriptions.isEmpty <;>
    by_cases hpriv : c.private_subscriptions.isEmpty <;>
      by_cases hk : truthy c.api_key <;>
        by_cases hs : truthy c.secret_key <;>
          simp [start, hpub, hpriv, hk, hs]

theorem attemptTrace_upgraded_101 (cbs : List (String × Cb))
    (subs : List SubMsg) (recvs : List RecvStep) :
    ∃ t, attemptTrace cbs subs (AttemptOracle.upgraded 101 recvs)
        = subs.map Ev.send ++ t
      ∧ ∀ e ∈ t, isSend e = false := by
  refine ⟨(recvLoop cbs recvs).1.map (fun p => Ev.recvFrame p.1)
      ++ (if (recvLoop cbs recvs).2 = ExitKind.raised
          then [Ev.errorCb, Ev.delay] else []), by simp [attemptTrace], ?_⟩
  intro e he
  rcases List.mem_append.1 he with h | h
  · obtain ⟨p, _, rfl⟩ := List.mem_map.1 h
    rfl
  · by_cases hr : (recvLoop cbs recvs).2 = ExitKind.raised <;>
      simp [hr] at h
    rcases h with rfl | rfl <;> rfl

theorem countP_sendChannel (cbs : List (String × Cb)) (subs : List SubMsg)
    (recvs : List RecvStep) (ch : String) :
    (attemptTrace cbs subs (AttemptOracle.upgraded 101 recvs)).countP
        (sendChannelIs ch)
      = subs.countP (fun m => m.channel == ch) := by
  obtain ⟨t, ht, hns⟩ := attemptTrace_upgraded_101 cbs subs recvs
  rw [ht, List.countP_append]
  have h0 : t.countP (sendChannelIs ch) = 0 := by
    rw [List.countP_eq_zero]
    intro e he
    have hs := hns e he
    cases e <;> simp_all [isSend, sendChannelIs]
  rw [h0, List.countP_map]
  have hfun : (sendChannelIs ch ∘ Ev.send) = fun m : SubMsg => m.channel == ch := by
    funext m; rfl
  rw [hfun, Nat.add_zero]

theorem ticker_registered_iff (calls : List SubCall) (c : Client) :
    (dictGet (calls.foldl applyCall c).callbacks "ticker").isSome = true
      ↔ ((dictGet c.callbacks "ticker").isSome = true
          ∨ ∃ sym cb, SubCall.ticker sym cb ∈ calls) := by
  induction calls generalizing c with
  | nil => simp
  | cons call rest ih =>
    rw [List.foldl_cons, ih]
    rcases call with ⟨sym, cb⟩ | cb | cb | cb | ⟨cb, opt⟩ <;>
      simp [applyCall, subscribe_ticker, subscribe_executions, subscribe_orders,
        subscribe_positions, subscribe_position_summary,
        dictGet_dictInsert_self, dictGet_dictInsert_ne, List.mem_cons]
    exact Or.inr ⟨sym, cb, Or.inl ⟨rfl, rfl⟩⟩

theorem privSession_erases_to_wsLoop (cbs : List (String × Cb))
    (subs : List SubMsg) (token : String) (os : List AttemptOracle) :
    (privSession cbs subs token os).filterMap
        (fun e => match e with | PEv.inner e' => some e' | _ => none)
      = wsLoop cbs subs os := by
  induction os with
  | nil => simp [privSession, wsLoop]
  | cons o rest ih =>
    simp only [privSession, wsLoop, List.cons_append, List.filterMap_cons,
      List.filterMap_append, ih, List.filterMap_map]
    have hid : ((fun e => match e with | PEv.inner e' => some e' | _ => none)
        ∘ PEv.inner) = fun e : Ev => some e := by
      funext e; rfl
    rw [hid, List.filterMap_some]

end GmoFx

namespace GmoFx

/-! ### Claim theorems -/

/-- C3 counterexample: calling `subscribe_ticker` a second time on the
same channel does NOT leave a single subscribe command with replaced
parameters — the source appends unconditionally, so the list holds both
the old and the new command (the claim would require
`[⟨"ticker", some "EUR_JPY", none⟩]`). -/
theorem resubscribe_appends_second_command :
    (subscribe_ticker (subscribe_ticker (initClient none none) "USD_JPY" cb0)
        "EUR_JPY" cb0).public_subscriptions
      = [⟨"ticker", some "USD_JPY", none⟩, ⟨"ticker", some "EUR_JPY", none⟩] := rfl

/-- C3 amended: re-subscribing to the same channel replaces the
registered callback (last write wins in the callback dict), but appends
a second subscribe command to the stream's subscription list instead of
replacing the first one's parameters. -/
theorem resubscribe_replaces_callback_and_appends (c : Client)
    (sym1 sym2 : String) (cb1 cb2 : Cb) :
    dictGet (subscribe_ticker (subscribe_ticker c sym1 cb1) sym2 cb2).callbacks "ticker"
        = some cb2
      ∧ (subscribe_ticker (subscribe_ticker c sym1 cb1) sym2 cb2).public_subscriptions
        = c.public_subscriptions
            ++ [⟨"ticker", some sym1, none⟩, ⟨"ticker", some sym2, none⟩] := by
  constructor
  · simp [subscribe_ticker, dictGet_dictInsert_self]
  · simp [subscribe_ticker]

/-- C2 counterexample: calling `subscribe_ticker` twice registers the
`ticker` channel but puts two subscribe commands in the list, so a
successful connection attempt sends the registered channel's subscribe
command twice — not exactly once as the claim states for every
sequence of `subscribe_*` calls. -/
theorem duplicate_subscription_sends_twice :
    (attemptTrace [] (clientOf none none
          [SubCall.ticker "USD_JPY" cb0, SubCall.ticker "USD_JPY" cb0]).public_subscriptions
        (AttemptOracle.upgraded 101 [])).countP (sendChannelIs "ticker") = 2 := by
  rfl

/-- C2 amended: on every successful (status 101) connection attempt of
either stream, the subscribe commands sent are exactly the stream's
registration list — one send per registration entry, in registration
order — and every send precedes every received frame; each registered
channel's command is sent exactly once provided no channel was
registered twice. -/
theorem subscribe_commands_once_per_entry_in_order
    (cbs : List (String × Cb)) (api_key secret_key : Option String)
    (calls : List SubCall) (recvs : List RecvStep) :
    (∃ t, attemptTrace cbs (clientOf api_key secret_key calls).public_subscriptions
          (AttemptOracle.upgraded 101 recvs)
        = ((clientOf api_key secret_key calls).public_subscriptions).map Ev.send ++ t
        ∧ ∀ e ∈ t, isSend e = false)
      ∧ (∃ t, attemptTrace cbs (clientOf api_key secret_key calls).private_subscriptions
            (AttemptOracle.upgraded 101 recvs)
          = ((clientOf api_key secret_key calls).private_subscriptions).map Ev.send ++ t
          ∧ ∀ e ∈ t, isSend e = false)
      ∧ ((((clientOf api_key secret_key calls).public_subscriptions).map
            SubMsg.channel).Nodup →
          ∀ ch ∈ ((clientOf api_key secret_key calls).public_subscriptions).map
              SubMsg.channel,
            (attemptTrace cbs (clientOf api_key secret_key calls).public_subscriptions
                (AttemptOracle.upgraded 101 recvs)).countP (sendChannelIs ch) = 1)
      ∧ ((((clientOf api_key secret_key calls).private_subscriptions).map
            SubMsg.channel).Nodup →
          ∀ ch ∈ ((clientOf api_key secret_key calls).private_subscriptions).map
              SubMsg.channel,
            (attemptTrace cbs (clientOf api_key secret_key calls).private_subscriptions
                (AttemptOracle.upgraded 101 recvs)).countP (sendChannelIs ch) = 1) := by
  refine ⟨attemptTrace_upgraded_101 _ _ _, attemptTrace_upgraded_101 _ _ _, ?_, ?_⟩ <;>
  · intro hnd ch hch
    rw [countP_sendChannel]
    have hcong : ∀ subs : List SubMsg,
        subs.countP (fun m => m.channel == ch)
          = (subs.map SubMsg.channel).count ch := by
      intro subs
      rw [List.count, List.countP_map]
      exact List.countP_congr fun m _ => by simp [Function.comp, beq_iff_eq]
    rw [hcong]
    exact List.count_eq_one_of_mem hnd hch

/-- C2 witness: a single `subscribe_ticker` registration is sent exactly
once on a successful attempt. -/
theorem subscribe_commands_once_per_entry_in_order_witness :
    (attemptTrace [] (clientOf none none
          [SubCall.ticker "USD_JPY" cb0]).public_subscriptions
        (AttemptOracle.upgraded 101 [])).countP (sendChannelIs "ticker") = 1 := by
  refine (subscribe_commands_once_per_entry_in_order [] none none
      [SubCall.ticker "USD_JPY" cb0] []).2.2.1 ?_ "ticker" ?_
  · rw [show ((clientOf none none [SubCall.ticker "USD_JPY" cb0]).public_subscriptions).map
        SubMsg.channel = ["ticker"] from rfl]
    simp
  · rw [show ((clientOf none none [SubCall.ticker "USD_JPY" cb0]).public_subscriptions).map
        SubMsg.channel = ["ticker"] from rfl]
    simp

/-- C4 counterexample: the frame `{"channel": "", "ask": ..., "bid":
...}` HAS a channel field, and no callback is registered under the
empty channel name — the claim therefore requires it to be dropped.
The dispatcher instead tests Python truthiness (`if channel:`), so the
empty channel value falls through to the ask/bid shape fallback and the
frame is delivered to the ticker callback. -/
theorem empty_channel_frame_routed_to_ticker :
    dispatchRun [("ticker", cb0)] ⟨some "", true, true⟩ = DispatchOutcome.delivered
      ∧ dictGet [("ticker", cb0)] "" = none := ⟨rfl, rfl⟩

/-- C4 amended: a frame whose channel field is present and NON-EMPTY is
delivered to the callback registered under that channel (dropped when
none is registered); a frame whose channel field is absent OR empty is
delivered to the `ticker` callback exactly when it has both `ask` and
`bid` fields and one is registered, and is dropped otherwise; the
`ticker` callback is registered precisely when some `subscribe_ticker`
call was made. -/
theorem dispatch_routing_amended (cbs : List (String × Cb)) (f : Frame)
    (api_key secret_key : Option String) (calls : List SubCall) :
    (∀ ch, f.channel = some ch → ch ≠ "" → dispatchTarget cbs f = dictGet cbs ch)
      ∧ ((f.channel = none ∨ f.channel = some "") → f.hasAsk = true →
          f.hasBid = true → dispatchTarget cbs f = dictGet cbs "ticker")
      ∧ ((f.channel = none ∨ f.channel = some "") →
          (f.hasAsk = false ∨ f.hasBid = false) → dispatchTarget cbs f = none)
      ∧ ((dictGet (clientOf api_key secret_key calls).callbacks "ticker").isSome = true
          ↔ ∃ sym cb, SubCall.ticker sym cb ∈ calls) := by
  refine ⟨?_, ?_, ?_, ?_⟩
  · rintro ch hch hne
    obtain ⟨c1, a1, b1⟩ := f
    obtain rfl : c1 = some ch := hch
    simp [dispatchTarget, truthy, hne]
  · rintro (hch | hch) ha hb <;>
    · obtain ⟨c1, a1, b1⟩ := f
      obtain rfl : c1 = _ := hch
      simp_all [dispatchTarget, truthy]
  · rintro (hch | hch) hab <;>
    · obtain ⟨c1, a1, b1⟩ := f
      obtain rfl : c1 = _ := hch
      rcases hab with h | h <;> simp_all [dispatchTarget, truthy]
  · rw [clientOf, ticker_registered_iff]
    simp [initClient, dictGet]

/-- C4 witness: a frame carrying a non-empty channel name is routed via
the registry lookup for that channel. -/
theorem dispatch_routing_amended_witness :
    dispatchTarget [("executionEvents", cb0)] ⟨some "executionEvents", false, false⟩
      = dictGet [("executionEvents", cb0)] "executionEvents" := by
  exact (dispatch_routing_amended [("executionEvents", cb0)]
    ⟨some "executionEvents", false, false⟩ none none []).1 "executionEvents" rfl
    (by decide)

/-- C5: `start()` with private subscriptions registered but a missing
(or empty) `api_key`/`secret_key` raises the configuration `ValueError`,
and the private loop task is never created — only the public loop task
(when public subscriptions exist) was added before the raise. -/
theorem start_without_credentials_raises (c : Client)
    (hpriv : c.private_subscriptions ≠ [])
    (hcred : truthy c.api_key = false ∨ truthy c.secret_key = false) :
    (start c).error = some "Private API subscriptions require api_key and secret_key."
      ∧ (start c).state.tasks
        = c.tasks ++ (if c.public_subscriptions.isEmpty then []
            else [TaskKind.publicLoop]) := by
  have hp : c.private_subscriptions.isEmpty = false := by
    simp [List.isEmpty_iff, hpriv]
  by_cases hpub : c.public_subscriptions.isEmpty <;>
    rcases hcred with h | h <;>
      simp [start, hp, hpub, h]

/-- C5 witness: a fresh client with one private subscription and no
credentials. -/
theorem start_without_credentials_raises_witness :
    (start (clientOf none none [SubCall.executions cb0])).error
      = some "Private API subscriptions require api_key and secret_key." := by
  exact (start_without_credentials_raises
    (clientOf none none [SubCall.executions cb0])
    (by rw [show (clientOf none none [SubCall.executions cb0]).private_subscriptions
          = [⟨"executionEvents", none, none⟩] from rfl]; simp)
    (Or.inl rfl)).1

/-- C9 counterexample: two failures of the claim at concrete inputs.
First, `get_orders(orderId="", rootOrderId="123")` has BOTH
mutually-exclusive parameters supplied, so the claim requires a
`ValueError`; the source tests Python truthiness, the empty string is
falsy, and the call instead passes validation with only `rootOrderId`
in the outgoing parameters. Second, `change_order(price="139",
orderId="1", clientOrderId="abc")` does raise, but `req_body =
{"price": price}` has already been built when the raise happens,
refuting the claim's "before any request headers or request body for
the HTTP call are built". -/
theorem both_ids_supplied_no_error :
    get_orders_params (some "") (some "123")
        = Except.ok [("rootOrderId", JVal.str "123")]
      ∧ change_order_req_body "139" (some "1") (some "abc")
        = Except.error ("orderId clientOrderId 2つ同時には設定できません。",
            [("price", JVal.str "139")]) := ⟨rfl, rfl⟩

set_option maxHeartbeats 1000000 in
/-- C9 amended: for every REST operation with a mutually-exclusive
required-one-of parameter pair — `get_orders`, `get_executions`,
`change_order`, `change_oco_order`, `change_ifd_order`,
`change_ifo_order`, `cancel_orders` and `close_order` — validation is
by Python truthiness, not parameter presence: the call raises
`ValueError` when both pair members are truthy and when neither is
truthy (a supplied empty string, zero or empty list counts as absent),
and passes exactly when precisely one is truthy (the `change_*` /
`close_order` operations additionally require their price parameters
per their `is None` checks); the raise happens before request headers
are generated and before anything is sent, but after the operation's
unconditional fields (such as `change_order`'s `price` and
`close_order`'s `symbol`/`side`/`executionType`) have been placed in
the body dict; when exactly one pair member is truthy, exactly that one
appears among the outgoing pair parameters. -/
theorem one_of_pair_validation_amended
    (orderId rootOrderId clientOrderId : Option String)
    (limitPrice stopPrice firstPrice secondPrice : Option String)
    (secondLimitPrice secondStopPrice : Option String)
    (executionId size lowerBound upperBound : Option String)
    (orderIdInt rootOrderIdInt : Option Int)
    (rootOrderIds clientOrderIds : Option (List String))
    (settlePosition : Option (List SettlePosition))
    (price symbol side executionType : String) :
    passes (get_orders_params orderId rootOrderId)
        = (truthy orderId != truthy rootOrderId)
      ∧ (truthy orderId = true → truthy rootOrderId = false →
          pairKeys "orderId" "rootOrderId" (get_orders_params orderId rootOrderId)
            = ["orderId"])
      ∧ (truthy orderId = false → truthy rootOrderId = true →
          pairKeys "orderId" "rootOrderId" (get_orders_params orderId rootOrderId)
            = ["rootOrderId"])
      ∧ passes (get_executions_params orderIdInt executionId)
          = (truthyInt orderIdInt != truthy executionId)
      ∧ (truthyInt orderIdInt = true → truthy executionId = false →
          pairKeys "orderId" "executionId" (get_executions_params orderIdInt executionId)
            = ["orderId"])
      ∧ (truthyInt orderIdInt = false → truthy executionId = true →
          pairKeys "orderId" "executionId" (get_executions_params orderIdInt executionId)
            = ["executionId"])
      ∧ passes (change_order_req_body price orderId clientOrderId)
          = (truthy orderId != truthy clientOrderId)
      ∧ (truthy orderId = true → truthy clientOrderId = false →
          pairKeys "orderId" "clientOrderId"
              (change_order_req_body price orderId clientOrderId) = ["orderId"])
      ∧ (truthy orderId = false → truthy clientOrderId = true →
          pairKeys "orderId" "clientOrderId"
              (change_order_req_body price orderId clientOrderId) = ["clientOrderId"])
      ∧ passes (change_oco_order_req_body rootOrderIdInt clientOrderId
              limitPrice stopPrice)
          = ((truthyInt rootOrderIdInt != truthy clientOrderId)
              && !(limitPrice.isNone && stopPrice.isNone))
      ∧ (truthyInt rootOrderIdInt = true → truthy clientOrderId = false →
          (limitPrice.isNone && stopPrice.isNone) = false →
          pairKeys "rootOrderId" "clientOrderId"
              (change_oco_order_req_body rootOrderIdInt clientOrderId
                limitPrice stopPrice) = ["rootOrderId"])
      ∧ (truthyInt rootOrderIdInt = false → truthy clientOrderId = true →
          (limitPrice.isNone && stopPrice.isNone) = false →
          pairKeys "rootOrderId" "clientOrderId"
              (change_oco_order_req_body rootOrderIdInt clientOrderId
                limitPrice stopPrice) = ["clientOrderId"])
      ∧ passes (change_ifd_order_req_body rootOrderIdInt clientOrderId
              firstPrice secondPrice)
          = ((truthyInt rootOrderIdInt != truthy clientOrderId)
              && !(firstPrice.isNone && secondPrice.isNone))
      ∧ (truthyInt rootOrderIdInt = true → truthy clientOrderId = false →
          (firstPrice.isNone && secondPrice.isNone) = false →
          pairKeys "rootOrderId" "clientOrderId"
              (change_ifd_order_req_body rootOrderIdInt clientOrderId
                firstPrice secondPrice) = ["rootOrderId"])
      ∧ (truthyInt rootOrderIdInt = false → truthy clientOrderId = true →
          (firstPrice.isNone && secondPrice.isNone) = false →
          pairKeys "rootOrderId" "clientOrderId"
              (change_ifd_order_req_body rootOrderIdInt clientOrderId
                firstPrice secondPrice) = ["clientOrderId"])
      ∧ passes (change_ifo_order_req_body rootOrderIdInt clientOrderId
              firstPrice secondLimitPrice secondStopPrice)
          = ((truthyInt rootOrderIdInt != truthy clientOrderId)
              && !(firstPrice.isNone && secondLimitPrice.isNone
                  && secondStopPrice.isNone))
      ∧ (truthyInt rootOrderIdInt = true → truthy clientOrderId = false →
          (firstPrice.isNone && secondLimitPrice.isNone
              && secondStopPrice.isNone) = false →
          pairKeys "rootOrderId" "clientOrderId"
              (change_ifo_order_req_body rootOrderIdInt clientOrderId
                firstPrice secondLimitPrice secondStopPrice) = ["rootOrderId"])
      ∧ (truthyInt rootOrderIdInt = false → truthy clientOrderId = true →
          (firstPrice.isNone && secondLimitPrice.isNone
              && secondStopPrice.isNone) = false →
          pairKeys "rootOrderId" "clientOrderId"
              (change_ifo_order_req_body rootOrderIdInt clientOrderId
                firstPrice secondLimitPrice secondStopPrice) = ["clientOrderId"])
      ∧ passes (cancel_orders_req_body rootOrderIds clientOrderIds)
          = (truthyList rootOrderIds != truthyList clientOrderIds)
      ∧ (truthyList rootOrderIds = true → truthyList clientOrderIds = false →
          pairKeys "rootOrderIds" "clientOrderIds"
              (cancel_orders_req_body rootOrderIds clientOrderIds)
            = ["rootOrderIds"])
      ∧ (truthyList rootOrderIds = false → truthyList clientOrderIds = true →
          pairKeys "rootOrderIds" "clientOrderIds"
              (cancel_orders_req_body rootOrderIds clientOrderIds)
            = ["clientOrderIds"])
      ∧ passes (close_order_req_body symbol side executionType clientOrderId
              size limitPrice stopPrice lowerBound upperBound settlePosition)
          = ((truthy size != truthyList settlePosition)
              && (!(decide (executionType = "LIMIT" ∨ executionType = "OCO"))
                  || limitPrice.isSome)
              && (!(decide (executionType = "STOP" ∨ executionType = "OCO"))
                  || stopPrice.isSome))
      ∧ (truthy size = true → truthyList settlePosition = false →
          ((executionType = "LIMIT" ∨ executionType = "OCO") →
            limitPrice.isSome = true) →
          ((executionType = "STOP" ∨ executionType = "OCO") →
            stopPrice.isSome = true) →
          pairKeys "size" "settlePosition"
              (close_order_req_body symbol side executionType clientOrderId
                size limitPrice stopPrice lowerBound upperBound settlePosition)
            = ["size"])
      ∧ (truthy size = false → truthyList settlePosition = true →
          ((executionType = "LIMIT" ∨ executionType = "OCO") →
            limitPrice.isSome = true) →
          ((executionType = "STOP" ∨ executionType = "OCO") →
            stopPrice.isSome = true) →
          pairKeys "size" "settlePosition"
              (close_order_req_body symbol side executionType clientOrderId
                size limitPrice stopPrice lowerBound upperBound settlePosition)
            = ["settlePosition"]) := by
  refine ⟨?_, ?_, ?_, ?_, ?_, ?_, ?_, ?_, ?_, ?_, ?_, ?_, ?_, ?_, ?_, ?_, ?_, ?_,
    ?_, ?_, ?_, ?_, ?_, ?_⟩
  · by_cases h1 : truthy orderId <;> by_cases h2 : truthy rootOrderId <;>
      simp [get_orders_params, passes, h1, h2]
  · intro h1 h2
    simp [get_orders_params, pairKeys, h1, h2]
  · intro h1 h2
    simp [get_orders_params, pairKeys, h1, h2]
  · by_cases h1 : truthyInt orderIdInt <;> by_cases h2 : truthy executionId <;>
      simp [get_executions_params, passes, h1, h2]
  · intro h1 h2
    simp [get_executions_params, pairKeys, h1, h2]
  · intro h1 h2
    simp [get_executions_params, pairKeys, h1, h2]
  · by_cases h1 : truthy orderId <;> by_cases h2 : truthy clientOrderId <;>
      simp [change_order_req_body, passes, h1, h2]
  · intro h1 h2
    simp [change_order_req_body, pairKeys, h1, h2]
  · intro h1 h2
    simp [change_order_req_body, pairKeys, h1, h2]
  · by_cases h1 : truthyInt rootOrderIdInt <;> by_cases h2 : truthy clientOrderId <;>
      by_cases h3 : limitPrice.isNone && stopPrice.isNone <;>
        simp [change_oco_order_req_body, passes, h1, h2, h3]
  · intro h1 h2 h3
    by_cases h4 : truthy limitPrice <;> by_cases h5 : truthy stopPrice <;>
      simp [change_oco_order_req_body, pairKeys, h1, h2, h3, h4, h5]
  · intro h1 h2 h3
    by_cases h4 : truthy limitPrice <;> by_cases h5 : truthy stopPrice <;>
      simp [change_oco_order_req_body, pairKeys, h1, h2, h3, h4, h5]
  · by_cases h1 : truthyInt rootOrderIdInt <;> by_cases h2 : truthy clientOrderId <;>
      by_cases h3 : firstPrice.isNone && secondPrice.isNone <;>
        simp [change_ifd_order_req_body, passes, h1, h2, h3]
  · intro h1 h2 h3
    by_cases h4 : truthy firstPrice <;> by_cases h5 : truthy secondPrice <;>
      simp [change_ifd_order_req_body, pairKeys, h1, h2, h3, h4, h5]
  · intro h1 h2 h3
    by_cases h4 : truthy firstPrice <;> by_cases h5 : truthy secondPrice <;>
      simp [change_ifd_order_req_body, pairKeys, h1, h2, h3, h4, h5]
  · by_cases h1 : truthyInt rootOrderIdInt <;> by_cases h2 : truthy clientOrderId <;>
      by_cases h3 : firstPrice.isNone && secondLimitPrice.isNone
          && secondStopPrice.isNone <;>
        simp [change_ifo_order_req_body, passes, h1, h2, h3]
  · intro h1 h2 h3
    by_cases h4 : truthy firstPrice <;> by_cases h5 : truthy secondLimitPrice <;>
      by_cases h6 : truthy secondStopPrice <;>
        simp [change_ifo_order_req_body, pairKeys, h1, h2, h3, h4, h5, h6]
  · intro h1 h2 h3
    by_cases h4 : truthy firstPrice <;> by_cases h5 : truthy secondLimitPrice <;>
      by_cases h6 : truthy secondStopPrice <;>
        simp [change_ifo_order_req_body, pairKeys, h1, h2, h3, h4, h5, h6]
  · by_cases h1 : truthyList rootOrderIds <;> by_cases h2 : truthyList clientOrderIds <;>
      simp [cancel_orders_req_body, passes, h1, h2]
  · intro h1 h2
    simp [cancel_orders_req_body, pairKeys, h1, h2]
  · intro h1 h2
    simp [cancel_orders_req_body, pairKeys, h1, h2]
  · by_cases h1 : truthy size <;> by_cases h2 : truthyList settlePosition <;>
      by_cases hC : truthy clientOrderId <;>
      by_cases hL : executionType = "LIMIT" ∨ executionType = "OCO" <;>
      by_cases hS : executionType = "STOP" ∨ executionType = "OCO" <;>
      cases limitPrice <;> cases stopPrice <;>
        simp [close_order_req_body, passes, h1, h2, hC, hL, hS]
  · intro h1 h2 hLp hSp
    by_cases hL : executionType = "LIMIT" ∨ executionType = "OCO" <;>
      by_cases hS : executionType = "STOP" ∨ executionType = "OCO" <;>
      rcases limitPrice with _ | lp <;> rcases stopPrice with _ | sp <;>
      by_cases hC : truthy clientOrderId <;>
        (simp_all [close_order_req_body, pairKeys] <;> split_ifs <;> simp_all)
  · intro h1 h2 hLp hSp
    by_cases hL : executionType = "LIMIT" ∨ executionType = "OCO" <;>
      by_cases hS : executionType = "STOP" ∨ executionType = "OCO" <;>
      rcases limitPrice with _ | lp <;> rcases stopPrice with _ | sp <;>
      by_cases hC : truthy clientOrderId <;>
        (simp_all [close_order_req_body, pairKeys] <;> split_ifs <;> simp_all)

/-- C9 witness: one truthy pair member of each kind lands alone among
the outgoing pair parameters. -/
theorem one_of_pair_validation_amended_witness :
    pairKeys "orderId" "rootOrderId" (get_orders_params (some "123") none)
        = ["orderId"]
      ∧ pairKeys "orderId" "executionId" (get_executions_params (some 7) none)
        = ["orderId"]
      ∧ pairKeys "rootOrderId" "clientOrderId"
          (change_ifo_order_req_body (some 5) none (some "1.2") none none)
        = ["rootOrderId"]
      ∧ pairKeys "rootOrderIds" "clientOrderIds"
          (cancel_orders_req_body none (some ["a", "b"])) = ["clientOrderIds"]
      ∧ pairKeys "size" "settlePosition"
          (close_order_req_body "USD_JPY" "BUY" "MARKET" none (some "10000")
            none none none none none) = ["size"] := by
  have h := one_of_pair_validation_amended (some "123") none none
    none none (some "1.2") none none none none (some "10000") none none
    (some 7) (some 5) none (some ["a", "b"]) none "139" "USD_JPY" "BUY" "MARKET"
  obtain ⟨g1, g2, g3, e1, e2, e3, c1, c2, c3, o1, o2, o3, d1, d2, d3, f1, f2, f3,
    n1, n2, n3, z1, z2, z3⟩ := h
  exact ⟨g2 (by decide) (by decide), e2 (by decide) (by decide),
    f2 (by decide) (by decide) (by decide),
    n3 (by decide) (by decide),
    z2 (by decide) (by decide) (by decide) (by decide)⟩

/-- C10: when `start()` raises the missing-credentials error, the state
has already been mutated: `_running` is `true` and, when public
subscriptions exist, the public loop task has already been spawned —
the failed `start()` does not leave the client in its stopped pre-call
state. -/
theorem failed_start_leaves_state_mutated (c : Client)
    (hpriv : c.private_subscriptions ≠ [])
    (hcred : truthy c.api_key = false ∨ truthy c.secret_key = false) :
    ((start c).error).isSome = true
      ∧ (start c).state.running = true
      ∧ (c.public_subscriptions ≠ [] → TaskKind.publicLoop ∈ (start c).state.tasks) := by
  have hp : c.private_subscriptions.isEmpty = false := by
    simp [List.isEmpty_iff, hpriv]
  by_cases hpub : c.public_subscriptions.isEmpty
  · have hpubnil : c.public_subscriptions = [] := by
      simpa [List.isEmpty_iff] using hpub
    rcases hcred with h | h <;> simp [start, hp, hpub, hpubnil, h]
  · rcases hcred with h | h <;> simp [start, hp, hpub, h]

/-- C10 witness: a fresh client with one public and one private
subscription and no credentials: `start` raises, yet `_running` is set
and the public loop task exists. -/
theorem failed_start_leaves_state_mutated_witness :
    (start (clientOf none none
        [SubCall.ticker "USD_JPY" cb0, SubCall.executions cb0])).state.running = true
      ∧ TaskKind.publicLoop ∈ (start (clientOf none none
          [SubCall.ticker "USD_JPY" cb0, SubCall.executions cb0])).state.tasks := by
  have h := failed_start_leaves_state_mutated
    (clientOf none none [SubCall.ticker "USD_JPY" cb0, SubCall.executions cb0])
    (by rw [show (clientOf none none
          [SubCall.ticker "USD_JPY" cb0, SubCall.executions cb0]).private_subscriptions
        = [⟨"executionEvents", none, none⟩] from rfl]; simp)
    (Or.inl rfl)
  exact ⟨h.2.1, h.2.2 (by
    rw [show (clientOf none none
          [SubCall.ticker "USD_JPY" cb0, SubCall.executions cb0]).public_subscriptions
        = [⟨"ticker", some "USD_JPY", none⟩] from rfl]
    simp)⟩

/-- C8: `close()` clears `_running`, cancels every outstanding task
exactly once (in order), awaits their settlement when any exist, and
empties the task list while leaving the subscription registry intact;
it is total (never raises: `cancel()` does not raise and the gather
uses `return_exceptions=True`). `close` before `start` completes with
nothing to cancel and `_running` false, and a `start` after `close`
succeeds again with the same subscriptions, spawning exactly the tasks
the registered streams call for. -/
theorem close_cancels_and_resets (c : Client) :
    (close c).state.running = false
      ∧ (close c).cancelled = c.tasks
      ∧ (close c).state.tasks = []
      ∧ (c.tasks ≠ [] → (close c).awaited = true)
      ∧ (close (initClient c.api_key c.secret_key)).cancelled = []
      ∧ (close (initClient c.api_key c.secret_key)).state.running = false
      ∧ ((start c).error = none →
          (start (close c).state).error = none
            ∧ (start (close c).state).state.tasks
              = (if c.public_subscriptions.isEmpty then [] else [TaskKind.publicLoop])
                ++ (if c.private_subscriptions.isEmpty then []
                    else [TaskKind.privateLoop])) := by
  refine ⟨rfl, rfl, rfl, ?_, rfl, rfl, ?_⟩
  · intro h
    simp [close, List.isEmpty_iff, h]
  · intro h
    have herr : (start (close c).state).error = none := by
      rw [start_error_none_iff] at h ⊢
      exact h
    refine ⟨herr, ?_⟩
    rw [start_tasks_of_no_error _ herr]
    simp [close]

/-- C1: evaluation of `_run_private_loop` at the failing input
(`privBugOracle`: token `"T"` issued, first connection upgraded and then
closed by the server, client still running). The inner loop of
`_run_ws_loop` makes a second connection attempt — with the SAME token
`"T"`, since the URL was built once before the call — so the run
contains two connection attempts but only ONE token-issue request and
only ONE deletion attempt, at the very end of the inner call rather
than after each ended session. The claim (one fresh token per reconnect
attempt, one deletion after each session ends) is false of the code:
reconnects inside `_run_ws_loop` reuse the token and trigger no
deletion, so after token expiry the private stream retries a stale
token indefinitely. -/
theorem private_reconnect_reuses_token :
    (privIter [] [] privBugOracle).countP isIssue = 1
      ∧ (privIter [] [] privBugOracle).countP isConnect = 2
      ∧ (privIter [] [] privBugOracle).countP
          (fun e => decide (e = PEv.connectAttempt "T")) = 2
      ∧ (privIter [] [] privBugOracle).countP isDelete = 1 := by
  refine ⟨rfl, rfl, ?_, rfl⟩
  rfl

/-- C6 counterexample: a WebSocket upgrade answered with status 200
(anything other than 101) only logs and sleeps the reconnect delay —
the error callback is NOT invoked, contradicting the claim that every
connection error, including a non-success upgrade status, is reported
via the error callback. -/
theorem bad_upgrade_status_not_reported :
    Ev.errorCb ∉ attemptTrace [] [] (AttemptOracle.upgraded 200 []) := by
  decide

/-- C6 amended: a connection exception (DNS/TCP/TLS failure of
`session.get`) is reported via the error callback and retried after the
reconnect delay; a non-success upgrade status (≠ 101) is equally
non-fatal and retried after the reconnect delay, but is only logged —
it is not surfaced to the error callback. In both cases the loop goes
on to the next attempt while the client is running. -/
theorem connection_error_handling_amended (cbs : List (String × Cb))
    (subs : List SubMsg) (status : Nat) (recvs : List RecvStep)
    (os : List AttemptOracle) (h : status ≠ 101) :
    attemptTrace cbs subs AttemptOracle.connExn = [Ev.errorCb, Ev.delay]
      ∧ attemptTrace cbs subs (AttemptOracle.upgraded status recvs) = [Ev.delay]
      ∧ wsLoop cbs subs (AttemptOracle.connExn :: os)
          = Ev.errorCb :: Ev.delay :: wsLoop cbs subs os
      ∧ wsLoop cbs subs (AttemptOracle.upgraded status recvs :: os)
          = Ev.delay :: wsLoop cbs subs os := by
  refine ⟨rfl, ?_, rfl, ?_⟩ <;> simp [attemptTrace, wsLoop, h]

/-- C6 witness: a status-200 upgrade attempt yields exactly the
reconnect delay. -/
theorem connection_error_handling_amended_witness :
    attemptTrace [] [] (AttemptOracle.upgraded 200 []) = [Ev.delay] :=
  (connection_error_handling_amended [] [] 200 [] [] (by decide)).2.1

/-- C7: a callback that raises (or, for an async callback, rejects) is
caught inside `_dispatch`; the receive loop records the error outcome
for that frame and processes the remaining receive steps exactly as it
would have otherwise — the error neither terminates the loop nor
changes what later frames (on any channel) do. -/
theorem callback_error_does_not_stop_loop (cbs : List (String × Cb)) (f : Frame)
    (rest : List RecvStep) (h : dispatchRun cbs f = DispatchOutcome.callbackError) :
    recvLoop cbs (RecvStep.frame f :: rest)
      = ((f, DispatchOutcome.callbackError) :: (recvLoop cbs rest).1,
          (recvLoop cbs rest).2) := by
  simp [recvLoop, h]

/-- C7 witness: a throwing ticker callback receives two frames in a row;
both are dispatched (each recording the caught error) and the loop ends
only because the run state does. -/
theorem callback_error_does_not_stop_loop_witness :
    recvLoop [("ticker", cbThrow)]
        [RecvStep.frame ⟨some "ticker", false, false⟩,
          RecvStep.frame ⟨some "ticker", true, true⟩]
      = ([(⟨some "ticker", false, false⟩, DispatchOutcome.callbackError),
          (⟨some "ticker", true, true⟩, DispatchOutcome.callbackError)],
          ExitKind.stopped) := by
  rw [callback_error_does_not_stop_loop [("ticker", cbThrow)]
    ⟨some "ticker", false, false⟩
    [RecvStep.frame ⟨some "ticker", true, true⟩] rfl]
  rfl

/-- C8 witness: closing a started client with one public subscription
awaits settlement, and starting again afterwards succeeds. -/
theorem close_cancels_and_resets_witness :
    (close wClient).awaited = true
      ∧ (start (close wClient).state).error = none := by
  have h := close_cancels_and_resets wClient
  refine ⟨h.2.2.2.1 (by
      rw [show wClient.tasks = [TaskKind.publicLoop] from rfl]; simp), ?_⟩
  exact (h.2.2.2.2.2.2 (by rfl)).1

end GmoFx
